import Mathlib

set_option linter.unusedVariables false

/-!
Verification of the mariflow-api session/event bridge against its
natural-language specification.

The development shallowly embeds the parts of the repository the claims
talk about:

* `SessionState` and the lifecycle event handlers of
  `src/services/WhatsAppService.ts` (`setupEventListeners`, lines 48-143);
* the Command Facade operations of the same file (`sendMessage`,
  `createGroup`, `getGroupInviteLink`, `markAsRead`, ..., lines 179-553),
  with the underlying `whatsapp-web.js` client abstracted as an explicit
  outcome (resolve / reject) per client call;
* the API-key middleware of `src/middleware/auth.ts`;
* the event fan-out wiring of `WhatsAppController.getEvents` and the
  Socket.IO bridge in `src/index.ts`, over Node's `EventEmitter`
  semantics (deliver to currently registered listeners, no replay).

Machine integers do not occur; timestamps (`Date.now()`) are modelled as
`Nat` parameters supplied at each point the source reads the clock.
-/

namespace Mariflow

/-- Session state of `WhatsAppService` (private fields, WhatsAppService.ts
lines 12-17).  `lastSeen` holds a `Date.now()` timestamp, modelled as `Nat`. -/
structure SessionState where
  isReady : Bool
  isAuthenticated : Bool
  qrCode : Option String
  phoneNumber : Option String
  name : Option String
  lastSeen : Nat
deriving DecidableEq, Repr

/-- The field initializers of `WhatsAppService` (lines 12-17): all flags
false, all strings null, `lastSeen = 0`. -/
def initialState : SessionState :=
  { isReady := false
    isAuthenticated := false
    qrCode := none
    phoneNumber := none
    name := none
    lastSeen := 0 }

/-- Raw lifecycle events dispatched to the handlers registered in
`setupEventListeners`.  The `ready` event carries the identity the handler
reads from `this.client.info` (`wid.user` and `pushname`, already collapsed
to `null` by the source's `|| null` when absent). -/
inductive LifecycleEvent where
  | qr (code : String)
  | authenticated
  | auth_failure (msg : String)
  | ready (widUser : Option String) (pushname : Option String)
  | disconnected (reason : String)
deriving DecidableEq, Repr

/-- One lifecycle handler invocation (WhatsAppService.ts lines 50-93).
`now` is the value of `Date.now()` at the moment the handler runs; only the
`ready` handler reads the clock.

* `qr` (lines 50-58): stores the QR string, nothing else.
* `authenticated` (lines 61-65): sets `isAuthenticated = true` only.
* `auth_failure` (lines 68-72): sets `isAuthenticated = false` only.
* `ready` (lines 75-85): sets both flags, `lastSeen = Date.now()`,
  identity fields, and clears `qrCode`.
* `disconnected` (lines 88-93): clears both flags only. -/
def applyEventAt (now : Nat) (s : SessionState) : LifecycleEvent → SessionState
  | LifecycleEvent.qr code => { s with qrCode := some code }
  | LifecycleEvent.authenticated => { s with isAuthenticated := true }
  | LifecycleEvent.auth_failure _ => { s with isAuthenticated := false }
  | LifecycleEvent.ready widUser pushname =>
      { s with isReady := true
               isAuthenticated := true
               lastSeen := now
               phoneNumber := widUser
               name := pushname
               qrCode := none }
  | LifecycleEvent.disconnected _ => { s with isReady := false, isAuthenticated := false }

/-- Fold a timed sequence of lifecycle events (each paired with the
`Date.now()` value at its handler run) over the session state. -/
def applyTimedEvents : SessionState → List (Nat × LifecycleEvent) → SessionState
  | s, [] => s
  | s, (now, e) :: rest => applyTimedEvents (applyEventAt now s e) rest

/-- The event name passed to `this.emit(...)` by each lifecycle handler
(each handler contains exactly one `this.emit` call). -/
def emitName : LifecycleEvent → String
  | LifecycleEvent.qr _ => "qr"
  | LifecycleEvent.authenticated => "authenticated"
  | LifecycleEvent.auth_failure _ => "auth_failure"
  | LifecycleEvent.ready _ _ => "ready"
  | LifecycleEvent.disconnected _ => "disconnected"

/-- Run a timed sequence of lifecycle events, returning the final state and
the list of event names emitted to the fan-out, in handler-run order. -/
def processTimedEvents : SessionState → List (Nat × LifecycleEvent) → SessionState × List String
  | s, [] => (s, [])
  | s, (now, e) :: rest =>
      let out := processTimedEvents (applyEventAt now s e) rest
      (out.1, emitName e :: out.2)

/-- The §3 invariant the spec asserts for the flag pair. -/
def readyImpliesAuth (s : SessionState) : Prop :=
  s.isReady = true → s.isAuthenticated = true

/-- `true` when every `auth_failure` in the sequence arrives while
`isReady = false` in the state current at that point. -/
def okSeq : SessionState → List (Nat × LifecycleEvent) → Bool
  | _, [] => true
  | s, (now, e) :: rest =>
      (match e with
       | LifecycleEvent.auth_failure _ => !s.isReady
       | _ => true) && okSeq (applyEventAt now s e) rest

/-- The typed error of `src/types` (`WhatsAppError extends Error`): message,
stable `code`, HTTP `statusCode` (defaulted to 500 at every construction
site in the service). -/
structure WhatsAppErr where
  message : String
  code : String
  statusCode : Nat
deriving DecidableEq, Repr

/-- The error every facade operation throws when `isReady` is false
(`new WhatsAppError('Cliente WhatsApp não está pronto', 'NOT_READY')`). -/
def notReadyError : WhatsAppErr :=
  { message := "Cliente WhatsApp não está pronto", code := "NOT_READY", statusCode := 500 }

/-- Outcome of one `await` on the underlying `whatsapp-web.js` client (an
external collaborator treated as a black box): the promise resolves with a
value or rejects with a raw error message. -/
inductive ClientOutcome (α : Type) where
  | resolves (value : α)
  | rejects (err : String)
deriving DecidableEq, Repr

/-- Minimal shape of the `Message` object the client resolves with. -/
structure WAMessage where
  id : String
  body : String
deriving DecidableEq, Repr

/-- Minimal shape of a `MessageMedia` payload. -/
structure WAMedia where
  mimetype : String
deriving DecidableEq, Repr

/-- Minimal shape of the `GroupChat` object the client resolves with. -/
structure WAGroup where
  gid : String
deriving DecidableEq, Repr

/-- Minimal shape of the `Contact` object the client resolves with. -/
structure WAContact where
  cid : String
deriving DecidableEq, Repr

/-- Minimal shape of the `Chat` object the client resolves with; only the
`isGroup` flag is inspected by the service (`getGroupInviteLink`). -/
structure WAChat where
  isGroup : Bool
deriving DecidableEq, Repr

/-- Observable effect of one facade operation: its returned value or thrown
`WhatsAppError`, the session state after the call, and how many calls
reached the underlying client. -/
structure OpResult (α : Type) where
  result : Except WhatsAppErr α
  state : SessionState
  clientCalls : Nat

/-- `WhatsAppService.sendMessage` (lines 179-193): guard on `isReady`, then
`await client.sendMessage`; on resolve set `lastSeen = Date.now()` and
return the client's message; on reject throw `SEND_ERROR`. -/
def sendMessage (now : Nat) (s : SessionState) (toId content : String)
    (clientSend : ClientOutcome WAMessage) : OpResult WAMessage :=
  if s.isReady = false then
    { result := Except.error notReadyError, state := s, clientCalls := 0 }
  else
    match clientSend with
    | ClientOutcome.resolves m =>
        { result := Except.ok m, state := { s with lastSeen := now }, clientCalls := 1 }
    | ClientOutcome.rejects _ =>
        { result := Except.error
            { message := "Falha ao enviar mensagem", code := "SEND_ERROR", statusCode := 500 }
          state := s, clientCalls := 1 }

/-- `WhatsAppService.sendMedia` (lines 195-209): same shape as
`sendMessage`, error code `SEND_MEDIA_ERROR`. -/
def sendMedia (now : Nat) (s : SessionState) (toId : String) (media : WAMedia)
    (caption : Option String) (clientSend : ClientOutcome WAMessage) : OpResult WAMessage :=
  if s.isReady = false then
    { result := Except.error notReadyError, state := s, clientCalls := 0 }
  else
    match clientSend with
    | ClientOutcome.resolves m =>
        { result := Except.ok m, state := { s with lastSeen := now }, clientCalls := 1 }
    | ClientOutcome.rejects _ =>
        { result := Except.error
            { message := "Falha ao enviar mídia", code := "SEND_MEDIA_ERROR", statusCode := 500 }
          state := s, clientCalls := 1 }

/-- `WhatsAppService.getContacts` (lines 211-224): read-only, no `lastSeen`
update, error code `GET_CONTACTS_ERROR`. -/
def getContacts (s : SessionState)
    (clientCall : ClientOutcome (List WAContact)) : OpResult (List WAContact) :=
  if s.isReady = false then
    { result := Except.error notReadyError, state := s, clientCalls := 0 }
  else
    match clientCall with
    | ClientOutcome.resolves cs =>
        { result := Except.ok cs, state := s, clientCalls := 1 }
    | ClientOutcome.rejects _ =>
        { result := Except.error
            { message := "Falha ao obter contatos", code := "GET_CONTACTS_ERROR"
              statusCode := 500 }
          state := s, clientCalls := 1 }

/-- `WhatsAppService.getChats` (lines 226-239): read-only, error code
`GET_CHATS_ERROR`. -/
def getChats (s : SessionState)
    (clientCall : ClientOutcome (List WAChat)) : OpResult (List WAChat) :=
  if s.isReady = false then
    { result := Except.error notReadyError, state := s, clientCalls := 0 }
  else
    match clientCall with
    | ClientOutcome.resolves cs =>
        { result := Except.ok cs, state := s, clientCalls := 1 }
    | ClientOutcome.rejects _ =>
        { result := Except.error
            { message := "Falha ao obter chats", code := "GET_CHATS_ERROR", statusCode := 500 }
          state := s, clientCalls := 1 }

/-- `WhatsAppService.getChatById` (lines 241-254): read-only, error code
`GET_CHAT_ERROR`.  Also invoked internally by `getGroupInviteLink`,
`getMessages`, `markAsRead`, `muteChat`, and the other chat operations. -/
def getChatById (s : SessionState) (chatId : String)
    (clientCall : ClientOutcome WAChat) : OpResult WAChat :=
  if s.isReady = false then
    { result := Except.error notReadyError, state := s, clientCalls := 0 }
  else
    match clientCall with
    | ClientOutcome.resolves c =>
        { result := Except.ok c, state := s, clientCalls := 1 }
    | ClientOutcome.rejects _ =>
        { result := Except.error
            { message := "Falha ao obter chat", code := "GET_CHAT_ERROR", statusCode := 500 }
          state := s, clientCalls := 1 }

/-- `WhatsAppService.createGroup` (lines 256-270): on resolve set
`lastSeen = Date.now()`; on reject throw `CREATE_GROUP_ERROR`. -/
def createGroup (now : Nat) (s : SessionState) (name : String)
    (participants : List String) (clientCall : ClientOutcome WAGroup) : OpResult WAGroup :=
  if s.isReady = false then
    { result := Except.error notReadyError, state := s, clientCalls := 0 }
  else
    match clientCall with
    | ClientOutcome.resolves g =>
        { result := Except.ok g, state := { s with lastSeen := now }, clientCalls := 1 }
    | ClientOutcome.rejects _ =>
        { result := Except.error
            { message := "Falha ao criar grupo", code := "CREATE_GROUP_ERROR", statusCode := 500 }
          state := s, clientCalls := 1 }

/-- An exception alive inside a facade `try` block: either a
`WhatsAppError` thrown by this service, or a raw rejection from the
underlying client. -/
inductive TryErr where
  | typed (e : WhatsAppErr)
  | raw (msg : String)
deriving DecidableEq, Repr

/-- The `try` block of `getGroupInviteLink` (lines 277-285): fetch the chat
through `this.getChatById` (whose failure is already the typed
`GET_CHAT_ERROR`), throw the typed `NOT_GROUP` error when the chat is not a
group, otherwise `await chat.getInviteCode()`.  Returns the block's outcome
and the number of underlying-client calls it made. -/
def getGroupInviteLinkTry (s : SessionState) (groupId : String)
    (chatOutcome : ClientOutcome WAChat)
    (inviteOutcome : ClientOutcome String) : Except TryErr String × Nat :=
  let r := getChatById s groupId chatOutcome
  match r.result with
  | Except.error e => (Except.error (TryErr.typed e), r.clientCalls)
  | Except.ok chat =>
      if chat.isGroup = false then
        (Except.error (TryErr.typed
          { message := "Chat não é um grupo", code := "NOT_GROUP", statusCode := 500 }),
         r.clientCalls)
      else
        match inviteOutcome with
        | ClientOutcome.resolves link => (Except.ok link, r.clientCalls + 1)
        | ClientOutcome.rejects m => (Except.error (TryErr.raw m), r.clientCalls + 1)

/-- `WhatsAppService.getGroupInviteLink` (lines 272-290): guard on
`isReady`, run the `try` block, and map every exception it raises —
including the internal `NOT_GROUP` — to the single typed error
`GET_INVITE_ERROR` in the `catch`.  No `lastSeen` update. -/
def getGroupInviteLink (s : SessionState) (groupId : String)
    (chatOutcome : ClientOutcome WAChat)
    (inviteOutcome : ClientOutcome String) : OpResult String :=
  if s.isReady = false then
    { result := Except.error notReadyError, state := s, clientCalls := 0 }
  else
    let t := getGroupInviteLinkTry s groupId chatOutcome inviteOutcome
    match t.1 with
    | Except.ok link => { result := Except.ok link, state := s, clientCalls := t.2 }
    | Except.error _ =>
        { result := Except.error
            { message := "Falha ao obter link de convite", code := "GET_INVITE_ERROR"
              statusCode := 500 }
          state := s, clientCalls := t.2 }

/-- `WhatsAppService.joinGroup` (lines 292-306): on resolve set
`lastSeen = Date.now()`; on reject throw `JOIN_GROUP_ERROR`. -/
def joinGroup (now : Nat) (s : SessionState) (inviteCode : String)
    (clientCall : ClientOutcome WAGroup) : OpResult WAGroup :=
  if s.isReady = false then
    { result := Except.error notReadyError, state := s, clientCalls := 0 }
  else
    match clientCall with
    | ClientOutcome.resolves g =>
        { result := Except.ok g, state := { s with lastSeen := now }, clientCalls := 1 }
    | ClientOutcome.rejects _ =>
        { result := Except.error
            { message := "Falha ao entrar no grupo", code := "JOIN_GROUP_ERROR"
              statusCode := 500 }
          state := s, clientCalls := 1 }

/-- `WhatsAppService.getProfilePicture` (lines 308-322): guard on
`isReady`, then `getContactById` followed by `getProfilePicUrl`; the
`catch` returns `null` instead of rethrowing, so a client failure becomes a
successful `null` result.  No `lastSeen` update. -/
def getProfilePicture (s : SessionState) (contactId : String)
    (getContactOutcome : ClientOutcome WAContact)
    (picOutcome : ClientOutcome (Option String)) : OpResult (Option String) :=
  if s.isReady = false then
    { result := Except.error notReadyError, state := s, clientCalls := 0 }
  else
    match getContactOutcome with
    | ClientOutcome.rejects _ =>
        { result := Except.ok none, state := s, clientCalls := 1 }
    | ClientOutcome.resolves _ =>
        match picOutcome with
        | ClientOutcome.resolves u =>
            { result := Except.ok u, state := s, clientCalls := 2 }
        | ClientOutcome.rejects _ =>
            { result := Except.ok none, state := s, clientCalls := 2 }

/-- `WhatsAppService.setStatus` (lines 324-337): on resolve set
`lastSeen = Date.now()`; on reject throw `SET_STATUS_ERROR`. -/
def setStatus (now : Nat) (s : SessionState) (status : String)
    (clientCall : ClientOutcome Unit) : OpResult Unit :=
  if s.isReady = false then
    { result := Except.error notReadyError, state := s, clientCalls := 0 }
  else
    match clientCall with
    | ClientOutcome.resolves _ =>
        { result := Except.ok (), state := { s with lastSeen := now }, clientCalls := 1 }
    | ClientOutcome.rejects _ =>
        { result := Except.error
            { message := "Falha ao alterar status", code := "SET_STATUS_ERROR"
              statusCode := 500 }
          state := s, clientCalls := 1 }

/-- `WhatsAppService.blockContact` (lines 339-353): `getContactById` then
`contact.block()`; a failure of either call throws `BLOCK_CONTACT_ERROR`;
on success set `lastSeen = Date.now()`. -/
def blockContact (now : Nat) (s : SessionState) (contactId : String)
    (getContactOutcome : ClientOutcome WAContact)
    (blockOutcome : ClientOutcome Unit) : OpResult Unit :=
  if s.isReady = false then
    { result := Except.error notReadyError, state := s, clientCalls := 0 }
  else
    match getContactOutcome with
    | ClientOutcome.rejects _ =>
        { result := Except.error
            { message := "Falha ao bloquear contato", code := "BLOCK_CONTACT_ERROR"
              statusCode := 500 }
          state := s, clientCalls := 1 }
    | ClientOutcome.resolves _ =>
        match blockOutcome with
        | ClientOutcome.resolves _ =>
            { result := Except.ok (), state := { s with lastSeen := now }, clientCalls := 2 }
        | ClientOutcome.rejects _ =>
            { result := Except.error
                { message := "Falha ao bloquear contato", code := "BLOCK_CONTACT_ERROR"
                  statusCode := 500 }
              state := s, clientCalls := 2 }

/-- `WhatsAppService.muteChat` (lines 402-416): `this.getChatById` then
`chat.mute(duration)`; a failure of either throws `MUTE_CHAT_ERROR`; on
success set `lastSeen = Date.now()`. -/
def muteChat (now : Nat) (s : SessionState) (chatId : String) (duration : Option Nat)
    (chatOutcome : ClientOutcome WAChat)
    (muteOutcome : ClientOutcome Unit) : OpResult Unit :=
  if s.isReady = false then
    { result := Except.error notReadyError, state := s, clientCalls := 0 }
  else
    let r := getChatById s chatId chatOutcome
    match r.result with
    | Except.error _ =>
        { result := Except.error
            { message := "Falha ao silenciar chat", code := "MUTE_CHAT_ERROR"
              statusCode := 500 }
          state := s, clientCalls := r.clientCalls }
    | Except.ok _ =>
        match muteOutcome with
        | ClientOutcome.resolves _ =>
            { result := Except.ok (), state := { s with lastSeen := now }
              clientCalls := r.clientCalls + 1 }
        | ClientOutcome.rejects _ =>
            { result := Except.error
                { message := "Falha ao silenciar chat", code := "MUTE_CHAT_ERROR"
                  statusCode := 500 }
              state := s, clientCalls := r.clientCalls + 1 }

/-- `WhatsAppService.markAsRead` (lines 387-400): `this.getChatById` then
`chat.sendSeen()`; a failure of either throws `MARK_READ_ERROR`.  Unlike
the other mutating operations the success path performs NO `lastSeen`
update — the `try` block contains no `this.lastSeen = Date.now()`. -/
def markAsRead (s : SessionState) (chatId : String)
    (chatOutcome : ClientOutcome WAChat)
    (sendSeenOutcome : ClientOutcome Unit) : OpResult Unit :=
  if s.isReady = false then
    { result := Except.error notReadyError, state := s, clientCalls := 0 }
  else
    let r := getChatById s chatId chatOutcome
    match r.result with
    | Except.error _ =>
        { result := Except.error
            { message := "Falha ao marcar como lido", code := "MARK_READ_ERROR"
              statusCode := 500 }
          state := s, clientCalls := r.clientCalls }
    | Except.ok _ =>
        match sendSeenOutcome with
        | ClientOutcome.resolves _ =>
            { result := Except.ok (), state := s, clientCalls := r.clientCalls + 1 }
        | ClientOutcome.rejects _ =>
            { result := Except.error
                { message := "Falha ao marcar como lido", code := "MARK_READ_ERROR"
                  statusCode := 500 }
              state := s, clientCalls := r.clientCalls + 1 }

/-- `WhatsAppService.logout` (lines 527-540): no readiness guard; on
resolve clear both flags and the three identity/challenge fields —
`lastSeen` is NOT reset; on reject throw `LOGOUT_ERROR` leaving the state
untouched (the assignments sit after the `await`). -/
def logout (s : SessionState) (clientCall : ClientOutcome Unit) : OpResult Unit :=
  match clientCall with
  | ClientOutcome.resolves _ =>
      { result := Except.ok ()
        state := { s with isReady := false, isAuthenticated := false
                          phoneNumber := none, name := none, qrCode := none }
        clientCalls := 1 }
  | ClientOutcome.rejects _ =>
      { result := Except.error
          { message := "Falha ao fazer logout", code := "LOGOUT_ERROR", statusCode := 500 }
        state := s, clientCalls := 1 }

/-- `WhatsAppService.destroy` (lines 155-166): `await client.destroy()`;
on resolve clear `isReady` and `isAuthenticated` ONLY; a rejection is
swallowed (logged, never rethrown) and leaves the state untouched.  Returns
the resulting session state. -/
def destroy (s : SessionState) (clientCall : ClientOutcome Unit) : SessionState :=
  match clientCall with
  | ClientOutcome.resolves _ => { s with isReady := false, isAuthenticated := false }
  | ClientOutcome.rejects _ => s

/-- Remove the first occurrence of the 7-character substring `"Bearer "`
from a character list — the effect of the JavaScript
`String.prototype.replace('Bearer ', '')`, which replaces only the first
occurrence and leaves the string unchanged when the pattern is absent. -/
def stripBearerList : List Char → List Char
  | [] => []
  | c :: rest =>
      if List.take 7 (c :: rest) = "Bearer ".toList then List.drop 7 (c :: rest)
      else c :: stripBearerList rest

/-- String version of `stripBearerList`, embedding
`authHeader.replace('Bearer ', '')` from `src/middleware/auth.ts` line 13. -/
def stripBearer (s : String) : String :=
  String.mk (stripBearerList s.toList)

/-- The two request headers the middleware reads.  `none` models an absent
header; the empty string models a present-but-empty header (falsy in JS,
like `undefined`). -/
structure AuthRequest where
  xApiKey : Option String
  authorization : Option String
deriving DecidableEq, Repr

/-- Line 13 of `auth.ts`:
`req.headers['x-api-key'] || req.headers['authorization']?.replace('Bearer ', '')`.
A present non-empty `x-api-key` wins; an absent or empty one (falsy) falls
through to the stripped `authorization` header when that header exists. -/
def extractApiKey (req : AuthRequest) : Option String :=
  match req.xApiKey with
  | some k => if k = "" then Option.map stripBearer req.authorization else some k
  | none => Option.map stripBearer req.authorization

/-- Observable outcome of the middleware: `next()` was called with
`req.apiKey` set, or a JSON error envelope `{success, error, timestamp}`
was sent with the given HTTP status and the handler never ran. -/
inductive AuthOutcome where
  | proceed (apiKey : String)
  | respond (status : Nat) (success : Bool) (error : String)
deriving DecidableEq, Repr

/-- `authenticateApiKey` (`src/middleware/auth.ts` lines 11-59): missing or
empty key → throw `AuthenticationError('API key é obrigatória')`; key
different from `config.auth.apiKey` → throw
`AuthenticationError('API key inválida')`; both are caught below and sent
as a 401 envelope with `success:false`; otherwise `next()` is called. -/
def authenticateApiKey (configKey : String) (req : AuthRequest) : AuthOutcome :=
  match extractApiKey req with
  | none => AuthOutcome.respond 401 false "API key é obrigatória"
  | some k =>
      if k = "" then AuthOutcome.respond 401 false "API key é obrigatória"
      else if k ≠ configKey then AuthOutcome.respond 401 false "API key inválida"
      else AuthOutcome.proceed k

/-- One step of the event fan-out's life, as wired in the repository:
`attach c` — a consumer registers its listener (an SSE connection opening
in `WhatsAppController.getEvents`, or a socket connecting in
`App.initializeSocketIO`); `detach c` — that consumer's `close` handler
runs `removeListener`; `emitEv name` — the service runs `this.emit(name, …)`.
Consumers are identified by a string id; each open connection registers
exactly one fresh handler closure, so one consumer holds at most one
registration. -/
inductive FanStep where
  | attach (c : String)
  | detach (c : String)
  | emitEv (name : String)
deriving DecidableEq, Repr

/-- Effect of one step on the emitter's listener list (Node
`EventEmitter` semantics: `on` appends a listener, `removeListener`
deletes it, `emit` leaves the list unchanged).  `attach` is a no-op for an
already-registered consumer because each connection registers once. -/
def applyStep (ls : List String) : FanStep → List String
  | FanStep.attach c => if c ∈ ls then ls else c :: ls
  | FanStep.detach c => ls.erase c
  | FanStep.emitEv _ => ls

/-- Listener list immediately before step `k` of the trace, starting from
listener list `ls`. -/
def listenersAt : List String → List FanStep → Nat → List String
  | ls, [], _ => ls
  | ls, _ :: _, 0 => ls
  | ls, st :: rest, Nat.succ k => listenersAt (applyStep ls st) rest k

/-- One delivery record: consumer `c` received the event named `e` emitted
at trace step `i`. -/
def tagDelivery (i : Nat) (e : String) (c : String) : String × Nat × String :=
  (c, i, e)

/-- Delivery log of a fan-out trace: `emit` hands the event to every
currently registered listener, once each, synchronously (Node `emit`
iterates the listener array); nothing is buffered for later consumers.
Each delivery is tagged with the index of the emitting step, so two
emissions of the same event name stay distinct. -/
def fanDeliveries : List String → Nat → List FanStep → List (String × Nat × String)
  | _, _, [] => []
  | ls, i, FanStep.attach c :: rest =>
      fanDeliveries (applyStep ls (FanStep.attach c)) (i + 1) rest
  | ls, i, FanStep.detach c :: rest =>
      fanDeliveries (applyStep ls (FanStep.detach c)) (i + 1) rest
  | ls, i, FanStep.emitEv e :: rest =>
      ls.map (tagDelivery i e) ++ fanDeliveries ls (i + 1) rest

/-- Number of times a given delivery record occurs in a delivery log. -/
def deliveryCount (d : String × Nat × String)
    (log : List (String × Nat × String)) : Nat :=
  (log.filter (fun d2 => d2 = d)).length

lemma readyImpliesAuth_initial : readyImpliesAuth initialState := by
  intro h
  simp [initialState] at h

lemma readyImpliesAuth_step (now : Nat) (s : SessionState) (e : LifecycleEvent)
    (hinv : readyImpliesAuth s)
    (hsafe : (match e with
              | LifecycleEvent.auth_failure _ => !s.isReady
              | _ => true) = true) :
    readyImpliesAuth (applyEventAt now s e) := by
  cases e with
  | qr code =>
      intro h
      exact hinv h
  | authenticated =>
      intro h
      rfl
  | auth_failure msg =>
      intro h
      simp only [applyEventAt] at h
      simp only [Bool.not_eq_true'] at hsafe
      rw [h] at hsafe
      cases hsafe
  | ready widUser pushname =>
      intro h
      rfl
  | disconnected reason =>
      intro h
      simp only [applyEventAt] at h
      cases h

lemma readyImpliesAuth_applyTimedEvents (es : List (Nat × LifecycleEvent)) :
    ∀ s : SessionState, readyImpliesAuth s → okSeq s es = true →
      readyImpliesAuth (applyTimedEvents s es) := by
  induction es with
  | nil =>
      intro s hinv _
      exact hinv
  | cons p rest ih =>
      intro s hinv hok
      obtain ⟨now, e⟩ := p
      simp only [okSeq, Bool.and_eq_true] at hok
      exact ih (applyEventAt now s e) (readyImpliesAuth_step now s e hinv hok.1) hok.2

/-- C1 counterexample: the sequence `[ready, auth_failure]` is a sequence of
lifecycle handler invocations from the initial state after which
`isReady = true` while `isAuthenticated = false` — the `auth_failure`
handler clears `isAuthenticated` but leaves `isReady` untouched. -/
theorem c1_ready_then_auth_failure_breaks_invariant :
    (applyTimedEvents initialState
      [(1, LifecycleEvent.ready (some "5511") (some "nm")),
       (2, LifecycleEvent.auth_failure "boom")]).isReady = true ∧
    (applyTimedEvents initialState
      [(1, LifecycleEvent.ready (some "5511") (some "nm")),
       (2, LifecycleEvent.auth_failure "boom")]).isAuthenticated = false := by
  constructor
  · rfl
  · rfl

/-- C1 (amended): for every sequence of lifecycle handler invocations from
the initial state in which each `auth_failure` arrives while
`isReady = false`, the resulting state satisfies
`isReady = true → isAuthenticated = true`. -/
theorem c1_ready_implies_auth_of_okSeq (es : List (Nat × LifecycleEvent))
    (h : okSeq initialState es = true) :
    readyImpliesAuth (applyTimedEvents initialState es) :=
  readyImpliesAuth_applyTimedEvents es initialState readyImpliesAuth_initial h

/-- Witness for the amended C1 at a concrete event sequence. -/
theorem c1_ready_implies_auth_of_okSeq_witness :
    readyImpliesAuth (applyTimedEvents initialState
      [(1, LifecycleEvent.qr "QR1"),
       (2, LifecycleEvent.auth_failure "bad"),
       (3, LifecycleEvent.authenticated),
       (4, LifecycleEvent.ready (some "5511") (some "nm"))]) :=
  c1_ready_implies_auth_of_okSeq
    [(1, LifecycleEvent.qr "QR1"),
     (2, LifecycleEvent.auth_failure "bad"),
     (3, LifecycleEvent.authenticated),
     (4, LifecycleEvent.ready (some "5511") (some "nm"))]
    (by decide)

/-- C4 counterexample: after `[qr, authenticated]` the state has
`isAuthenticated = true` while the stored QR challenge is still present —
the `authenticated` handler (lines 61-65) does not clear `qrCode`. -/
theorem c4_authenticated_keeps_qr :
    (applyTimedEvents initialState
      [(1, LifecycleEvent.qr "QR1"), (2, LifecycleEvent.authenticated)]).isAuthenticated
        = true ∧
    (applyTimedEvents initialState
      [(1, LifecycleEvent.qr "QR1"), (2, LifecycleEvent.authenticated)]).qrCode
        = some "QR1" := by
  constructor
  · rfl
  · rfl

/-- C4 (amended): the `authenticated` transition leaves the stored QR
challenge unchanged; it is the `ready` transition that clears it (so the
challenge can remain non-null while `isAuthenticated = true`). -/
theorem c4_qr_cleared_by_ready_not_authenticated (s : SessionState) (now : Nat)
    (widUser pushname : Option String) :
    (applyEventAt now s LifecycleEvent.authenticated).qrCode = s.qrCode ∧
    (applyEventAt now s (LifecycleEvent.ready widUser pushname)).qrCode = none := by
  constructor
  · rfl
  · rfl

/-- C5 counterexample: the `qr` handler does not update `lastSeen` to the
current time — with `Date.now() = 5` the state keeps `lastSeen = 0`. -/
theorem c5_qr_does_not_touch_lastSeen :
    (applyEventAt 5 initialState (LifecycleEvent.qr "QR1")).lastSeen = 0 ∧ (0 : Nat) ≠ 5 := by
  constructor
  · rfl
  · decide

/-- C5 (amended): each lifecycle handler emits exactly one event to the
fan-out, in the order the raw events were received; among the lifecycle
transitions only `ready` sets `lastSeen` to the current time, while `qr`,
`authenticated`, `auth_failure` and `disconnected` leave it unchanged. -/
theorem c5_emission_order_and_lastSeen (s : SessionState)
    (es : List (Nat × LifecycleEvent)) :
    (processTimedEvents s es).2 = es.map (fun p => emitName p.2) ∧
    (∀ now code, (applyEventAt now s (LifecycleEvent.qr code)).lastSeen = s.lastSeen) ∧
    (∀ now, (applyEventAt now s LifecycleEvent.authenticated).lastSeen = s.lastSeen) ∧
    (∀ now msg, (applyEventAt now s (LifecycleEvent.auth_failure msg)).lastSeen = s.lastSeen) ∧
    (∀ now reason,
      (applyEventAt now s (LifecycleEvent.disconnected reason)).lastSeen = s.lastSeen) ∧
    (∀ now widUser pushname,
      (applyEventAt now s (LifecycleEvent.ready widUser pushname)).lastSeen = now) := by
  refine ⟨?_, fun _ _ => rfl, fun _ => rfl, fun _ _ => rfl, fun _ _ => rfl, fun _ _ _ => rfl⟩
  induction es generalizing s with
  | nil => rfl
  | cons p rest ih =>
      obtain ⟨now, e⟩ := p
      simp only [processTimedEvents, List.map]
      rw [ih]

/-- C2: `sendMessage` invoked while `isReady = false` fails with the typed
`NOT_READY` (`SessionNotReady`) error, performs no call on the underlying
client, and leaves the session state unchanged — whatever the client stub
would have answered. -/
theorem c2_sendMessage_requires_ready (now : Nat) (s : SessionState)
    (toId content : String) (clientSend : ClientOutcome WAMessage)
    (h : s.isReady = false) :
    sendMessage now s toId content clientSend =
      { result := Except.error notReadyError, state := s, clientCalls := 0 } ∧
    notReadyError.code = "NOT_READY" := by
  constructor
  · simp [sendMessage, h]
  · rfl

/-- Witness for C2 at a concrete not-ready state and input. -/
theorem c2_sendMessage_requires_ready_witness :
    sendMessage 7 initialState "5511999999999@c.us" "hi"
        (ClientOutcome.resolves { id := "abc", body := "hi" }) =
      { result := Except.error notReadyError, state := initialState, clientCalls := 0 } ∧
    notReadyError.code = "NOT_READY" :=
  c2_sendMessage_requires_ready 7 initialState "5511999999999@c.us" "hi"
    (ClientOutcome.resolves { id := "abc", body := "hi" }) rfl

/-- C3 counterexample: `getProfilePicture`, invoked while ready with a
client that throws, returns the success value `null` instead of surfacing a
typed failure — its `catch` block returns `null` rather than rethrowing. -/
theorem c3_getProfilePicture_swallows_throw :
    (getProfilePicture
      { isReady := true, isAuthenticated := true, qrCode := none
        phoneNumber := some "5511", name := some "nm", lastSeen := 0 }
      "5511888888888@c.us" (ClientOutcome.rejects "boom")
      (ClientOutcome.resolves none)).result = Except.ok none := rfl

/-- C3 (amended): every modelled Command Facade operation except
`getProfilePicture`, invoked while ready with a throwing client, surfaces a
`WhatsAppError` whose `code` is that operation's documented code
(`createGroup` → `CREATE_GROUP_ERROR`, etc.), for a throw at any of the
operation's client calls; `getProfilePicture` alone converts the failure
into the success value `null`. -/
theorem c3_facade_error_codes (s : SessionState) (now : Nat)
    (toId content gname inviteCode chatId groupId contactId status errMsg : String)
    (media : WAMedia) (caption : Option String) (participants : List String)
    (contact : WAContact) (chat : WAChat) (duration : Option Nat)
    (picOutcome : ClientOutcome (Option String))
    (h : s.isReady = true) :
    (sendMessage now s toId content (ClientOutcome.rejects errMsg)).result =
      Except.error
        { message := "Falha ao enviar mensagem", code := "SEND_ERROR", statusCode := 500 } ∧
    (sendMedia now s toId media caption (ClientOutcome.rejects errMsg)).result =
      Except.error
        { message := "Falha ao enviar mídia", code := "SEND_MEDIA_ERROR", statusCode := 500 } ∧
    (getContacts s (ClientOutcome.rejects errMsg)).result =
      Except.error
        { message := "Falha ao obter contatos", code := "GET_CONTACTS_ERROR"
          statusCode := 500 } ∧
    (getChats s (ClientOutcome.rejects errMsg)).result =
      Except.error
        { message := "Falha ao obter chats", code := "GET_CHATS_ERROR", statusCode := 500 } ∧
    (getChatById s chatId (ClientOutcome.rejects errMsg)).result =
      Except.error
        { message := "Falha ao obter chat", code := "GET_CHAT_ERROR", statusCode := 500 } ∧
    (createGroup now s gname participants (ClientOutcome.rejects errMsg)).result =
      Except.error
        { message := "Falha ao criar grupo", code := "CREATE_GROUP_ERROR", statusCode := 500 } ∧
    (getGroupInviteLink s groupId (ClientOutcome.rejects errMsg)
        (ClientOutcome.rejects errMsg)).result =
      Except.error
        { message := "Falha ao obter link de convite", code := "GET_INVITE_ERROR"
          statusCode := 500 } ∧
    (joinGroup now s inviteCode (ClientOutcome.rejects errMsg)).result =
      Except.error
        { message := "Falha ao entrar no grupo", code := "JOIN_GROUP_ERROR"
          statusCode := 500 } ∧
    (setStatus now s status (ClientOutcome.rejects errMsg)).result =
      Except.error
        { message := "Falha ao alterar status", code := "SET_STATUS_ERROR"
          statusCode := 500 } ∧
    (blockContact now s contactId (ClientOutcome.rejects errMsg)
        (ClientOutcome.rejects errMsg)).result =
      Except.error
        { message := "Falha ao bloquear contato", code := "BLOCK_CONTACT_ERROR"
          statusCode := 500 } ∧
    (blockContact now s contactId (ClientOutcome.resolves contact)
        (ClientOutcome.rejects errMsg)).result =
      Except.error
        { message := "Falha ao bloquear contato", code := "BLOCK_CONTACT_ERROR"
          statusCode := 500 } ∧
    (muteChat now s chatId duration (ClientOutcome.rejects errMsg)
        (ClientOutcome.rejects errMsg)).result =
      Except.error
        { message := "Falha ao silenciar chat", code := "MUTE_CHAT_ERROR"
          statusCode := 500 } ∧
    (muteChat now s chatId duration (ClientOutcome.resolves chat)
        (ClientOutcome.rejects errMsg)).result =
      Except.error
        { message := "Falha ao silenciar chat", code := "MUTE_CHAT_ERROR"
          statusCode := 500 } ∧
    (markAsRead s chatId (ClientOutcome.rejects errMsg)
        (ClientOutcome.rejects errMsg)).result =
      Except.error
        { message := "Falha ao marcar como lido", code := "MARK_READ_ERROR"
          statusCode := 500 } ∧
    (markAsRead s chatId (ClientOutcome.resolves chat)
        (ClientOutcome.rejects errMsg)).result =
      Except.error
        { message := "Falha ao marcar como lido", code := "MARK_READ_ERROR"
          statusCode := 500 } ∧
    (getProfilePicture s contactId (ClientOutcome.rejects errMsg) picOutcome).result =
      Except.ok none := by
  refine ⟨?_, ?_, ?_, ?_, ?_, ?_, ?_, ?_, ?_, ?_, ?_, ?_, ?_, ?_, ?_, ?_⟩ <;>
    simp [sendMessage, sendMedia, getContacts, getChats, getChatById, createGroup,
      getGroupInviteLink, getGroupInviteLinkTry, joinGroup, setStatus, blockContact,
      muteChat, markAsRead, getProfilePicture, h]

/-- Witness for the amended C3 at a concrete ready state: `createGroup`
with a throwing client yields `CREATE_GROUP_ERROR`, while
`getProfilePicture` with a throwing client yields the success `null`. -/
theorem c3_facade_error_codes_witness :
    (createGroup 7
      { isReady := true, isAuthenticated := true, qrCode := none
        phoneNumber := some "5511", name := some "nm", lastSeen := 0 }
      "Test Group" ["5511999999999@c.us"] (ClientOutcome.rejects "boom")).result =
      Except.error
        { message := "Falha ao criar grupo", code := "CREATE_GROUP_ERROR", statusCode := 500 } ∧
    (getProfilePicture
      { isReady := true, isAuthenticated := true, qrCode := none
        phoneNumber := some "5511", name := some "nm", lastSeen := 0 }
      "5511888888888@c.us" (ClientOutcome.rejects "boom")
      (ClientOutcome.resolves none)).result = Except.ok none := by
  obtain ⟨h1, h2, h3, h4, h5, h6, h7, h8, h9, h10, h11, h12, h13, h14, h15, h16⟩ :=
    c3_facade_error_codes
      { isReady := true, isAuthenticated := true, qrCode := none
        phoneNumber := some "5511", name := some "nm", lastSeen := 0 }
      7 "t" "c" "Test Group" "inv" "chat" "grp" "5511888888888@c.us" "st" "boom"
      { mimetype := "image/png" } none ["5511999999999@c.us"]
      { cid := "x" } { isGroup := true } none (ClientOutcome.resolves none) rfl
  exact ⟨h6, h16⟩

/-- C6 counterexample: a successful `markAsRead`, run while ready, returns
`ok` but leaves the session state — in particular `lastSeen` — entirely
unchanged: its `try` block contains no `this.lastSeen = Date.now()`. -/
theorem c6_markAsRead_leaves_lastSeen :
    markAsRead
      { isReady := true, isAuthenticated := true, qrCode := none
        phoneNumber := some "5511", name := some "nm", lastSeen := 0 }
      "g@g.us" (ClientOutcome.resolves { isGroup := true }) (ClientOutcome.resolves ()) =
      { result := Except.ok ()
        state :=
          { isReady := true, isAuthenticated := true, qrCode := none
            phoneNumber := some "5511", name := some "nm", lastSeen := 0 }
        clientCalls := 2 } := rfl

/-- C6 (amended): every successful mutating facade operation among
`sendMessage`, `sendMedia`, `createGroup`, `joinGroup`, `setStatus`,
`blockContact`, `muteChat` sets `lastSeen` to the current time — in
particular a successful `sendMessage` returns exactly the descriptor the
client resolved with and advances `lastSeen` to `now` — but `markAsRead`
is the exception: its success leaves the session state unchanged. -/
theorem c6_mutating_ops_update_lastSeen (s : SessionState) (now : Nat)
    (toId content gname inviteCode chatId contactId status : String)
    (media : WAMedia) (caption : Option String) (participants : List String)
    (m : WAMessage) (g : WAGroup) (contact : WAContact) (chat : WAChat)
    (duration : Option Nat) (h : s.isReady = true) :
    sendMessage now s toId content (ClientOutcome.resolves m) =
      { result := Except.ok m, state := { s with lastSeen := now }, clientCalls := 1 } ∧
    (sendMedia now s toId media caption (ClientOutcome.resolves m)).state.lastSeen = now ∧
    (createGroup now s gname participants (ClientOutcome.resolves g)).state.lastSeen = now ∧
    (joinGroup now s inviteCode (ClientOutcome.resolves g)).state.lastSeen = now ∧
    (setStatus now s status (ClientOutcome.resolves ())).state.lastSeen = now ∧
    (blockContact now s contactId (ClientOutcome.resolves contact)
      (ClientOutcome.resolves ())).state.lastSeen = now ∧
    (muteChat now s chatId duration (ClientOutcome.resolves chat)
      (ClientOutcome.resolves ())).state.lastSeen = now ∧
    markAsRead s chatId (ClientOutcome.resolves chat) (ClientOutcome.resolves ()) =
      { result := Except.ok (), state := s, clientCalls := 2 } := by
  refine ⟨?_, ?_, ?_, ?_, ?_, ?_, ?_, ?_⟩ <;>
    simp [sendMessage, sendMedia, createGroup, joinGroup, setStatus, blockContact,
      muteChat, markAsRead, getChatById, h]

/-- Witness for the amended C6 at a concrete ready state: `sendMessage`
resolves with id `abc` and advances `lastSeen` to 42, and `markAsRead`
succeeds without touching the state. -/
theorem c6_mutating_ops_update_lastSeen_witness :
    sendMessage 42
      { isReady := true, isAuthenticated := true, qrCode := none
        phoneNumber := some "5511", name := some "nm", lastSeen := 0 }
      "5511999999999@c.us" "hi" (ClientOutcome.resolves { id := "abc", body := "hi" }) =
      { result := Except.ok { id := "abc", body := "hi" }
        state :=
          { isReady := true, isAuthenticated := true, qrCode := none
            phoneNumber := some "5511", name := some "nm", lastSeen := 42 }
        clientCalls := 1 } ∧
    markAsRead
      { isReady := true, isAuthenticated := true, qrCode := none
        phoneNumber := some "5511", name := some "nm", lastSeen := 0 }
      "g@g.us" (ClientOutcome.resolves { isGroup := true }) (ClientOutcome.resolves ()) =
      { result := Except.ok ()
        state :=
          { isReady := true, isAuthenticated := true, qrCode := none
            phoneNumber := some "5511", name := some "nm", lastSeen := 0 }
        clientCalls := 2 } := by
  obtain ⟨h1, h2, h3, h4, h5, h6, h7, h8⟩ :=
    c6_mutating_ops_update_lastSeen
      { isReady := true, isAuthenticated := true, qrCode := none
        phoneNumber := some "5511", name := some "nm", lastSeen := 0 }
      42 "5511999999999@c.us" "hi" "g" "inv" "g@g.us" "c" "st"
      { mimetype := "image/png" } none [] { id := "abc", body := "hi" }
      { gid := "gg" } { cid := "x" } { isGroup := true } none rfl
  exact ⟨h1, h8⟩

/-- C7 counterexample: from a populated session state, neither a successful
`logout` nor a successful `destroy` restores the initial state — `logout`
keeps `lastSeen = 5` (initially 0) and `destroy` additionally keeps the
QR challenge and identity fields. -/
theorem c7_logout_destroy_not_initial :
    (logout
      { isReady := true, isAuthenticated := true, qrCode := some "QR1"
        phoneNumber := some "5511", name := some "nm", lastSeen := 5 }
      (ClientOutcome.resolves ())).state ≠ initialState ∧
    destroy
      { isReady := true, isAuthenticated := true, qrCode := some "QR1"
        phoneNumber := some "5511", name := some "nm", lastSeen := 5 }
      (ClientOutcome.resolves ()) ≠ initialState := by
  constructor
  · decide
  · decide

/-- C7 (amended): a successful `logout` resets `isReady`,
`isAuthenticated`, `qrCode`, `phoneNumber` and `name` to their initial
values but leaves `lastSeen` unchanged; a successful `destroy` resets only
the two boolean flags; the failing variants leave the state untouched. -/
theorem c7_logout_destroy_reset (s : SessionState) (errMsg : String) :
    (logout s (ClientOutcome.resolves ())).result = Except.ok () ∧
    (logout s (ClientOutcome.resolves ())).state =
      { s with isReady := false, isAuthenticated := false
               phoneNumber := none, name := none, qrCode := none } ∧
    (logout s (ClientOutcome.resolves ())).state.lastSeen = s.lastSeen ∧
    destroy s (ClientOutcome.resolves ()) =
      { s with isReady := false, isAuthenticated := false } ∧
    destroy s (ClientOutcome.rejects errMsg) = s ∧
    (logout s (ClientOutcome.rejects errMsg)).state = s :=
  ⟨rfl, rfl, rfl, rfl, rfl, rfl⟩

/-- C10 counterexample: a `getGroupInviteLink` call failing on the
readiness guard surfaces `NOT_READY`, not `GET_INVITE_ERROR`. -/
theorem c10_not_ready_code_not_invite_error :
    (getGroupInviteLink initialState "g@g.us"
      (ClientOutcome.resolves { isGroup := true })
      (ClientOutcome.resolves "ABC")).result = Except.error notReadyError ∧
    notReadyError.code ≠ "GET_INVITE_ERROR" := by
  exact ⟨rfl, by decide⟩

/-- C10 (amended): once past the readiness guard, every failing
`getGroupInviteLink` surfaces `GET_INVITE_ERROR`; in particular the
internal `NOT_GROUP` error raised inside the `try` block is caught by the
operation's own `catch` and re-wrapped as `GET_INVITE_ERROR`; and in no
case — ready or not — does the code `NOT_GROUP` reach the caller. -/
theorem c10_invite_errors_rewrapped (s : SessionState) (groupId : String)
    (chatOutcome : ClientOutcome WAChat) (inviteOutcome : ClientOutcome String)
    (h : s.isReady = true) :
    (∀ e, (getGroupInviteLink s groupId chatOutcome inviteOutcome).result =
        Except.error e → e.code = "GET_INVITE_ERROR") ∧
    ((getGroupInviteLinkTry s groupId chatOutcome inviteOutcome).1 =
        Except.error (TryErr.typed
          { message := "Chat não é um grupo", code := "NOT_GROUP", statusCode := 500 }) →
      (getGroupInviteLink s groupId chatOutcome inviteOutcome).result =
        Except.error
          { message := "Falha ao obter link de convite", code := "GET_INVITE_ERROR"
            statusCode := 500 }) ∧
    (∀ (s2 : SessionState) (gid : String) (co : ClientOutcome WAChat)
        (io2 : ClientOutcome String) (e : WhatsAppErr),
      (getGroupInviteLink s2 gid co io2).result = Except.error e →
        e.code ≠ "NOT_GROUP") := by
  refine ⟨?_, ?_, ?_⟩
  · intro e he
    simp only [getGroupInviteLink, h] at he
    rcases ht : (getGroupInviteLinkTry s groupId chatOutcome inviteOutcome).1 with terr | v
    · rw [ht] at he
      simp at he
      rw [← he]
    · rw [ht] at he
      simp at he
  · intro ht
    simp only [getGroupInviteLink, h, ht]
    simp
  · intro s2 gid co io2 e he
    rcases hr : s2.isReady with _ | _
    · simp only [getGroupInviteLink, hr] at he
      simp at he
      rw [← he]
      decide
    · simp only [getGroupInviteLink, hr] at he
      rcases ht : (getGroupInviteLinkTry s2 gid co io2).1 with terr | v
      · rw [ht] at he
        simp at he
        rw [← he]
        decide
      · rw [ht] at he
        simp at he

/-- Witness for the amended C10: with a ready state and a chat that is not
a group, the `try` block raises `NOT_GROUP` and the public operation
surfaces `GET_INVITE_ERROR`. -/
theorem c10_invite_errors_rewrapped_witness :
    (getGroupInviteLink
      { isReady := true, isAuthenticated := true, qrCode := none
        phoneNumber := some "5511", name := some "nm", lastSeen := 0 }
      "g@g.us" (ClientOutcome.resolves { isGroup := false })
      (ClientOutcome.resolves "ABC")).result =
      Except.error
        { message := "Falha ao obter link de convite", code := "GET_INVITE_ERROR"
          statusCode := 500 } := by
  have h :=
    c10_invite_errors_rewrapped
      { isReady := true, isAuthenticated := true, qrCode := none
        phoneNumber := some "5511", name := some "nm", lastSeen := 0 }
      "g@g.us" (ClientOutcome.resolves { isGroup := false })
      (ClientOutcome.resolves "ABC") rfl
  exact h.2.1 rfl

/-- C8: with a non-empty configured key (the config default is the
non-empty `your-secret-api-key-here`), the middleware calls the handler if
and only if the key extracted from the `X-API-Key` header (falling back to
the `Authorization` header with its first `Bearer ` stripped) is exactly
equal, by string comparison, to the configured key; any proceed carries
exactly the configured key; and a missing or non-matching key yields the
401 `{success:false, error, timestamp}` envelope without invoking the
handler. -/
theorem c8_api_key_exact_match (configKey : String) (req : AuthRequest)
    (hk : configKey ≠ "") :
    (authenticateApiKey configKey req = AuthOutcome.proceed configKey ↔
      extractApiKey req = some configKey) ∧
    (∀ k, authenticateApiKey configKey req = AuthOutcome.proceed k → k = configKey) ∧
    (extractApiKey req ≠ some configKey →
      ∃ msg, authenticateApiKey configKey req = AuthOutcome.respond 401 false msg) := by
  rcases he : extractApiKey req with _ | k
  · refine ⟨⟨?_, ?_⟩, ?_, ?_⟩
    · intro hp
      simp [authenticateApiKey, he] at hp
    · intro hx
      simp at hx
    · intro k hp
      simp [authenticateApiKey, he] at hp
    · intro _
      exact ⟨"API key é obrigatória", by simp [authenticateApiKey, he]⟩
  · by_cases h0 : k = ""
    · subst h0
      refine ⟨⟨?_, ?_⟩, ?_, ?_⟩
      · intro hp
        simp [authenticateApiKey, he] at hp
      · intro hx
        simp at hx
        exact absurd hx.symm hk
      · intro k2 hp
        simp [authenticateApiKey, he] at hp
      · intro _
        exact ⟨"API key é obrigatória", by simp [authenticateApiKey, he]⟩
    · by_cases h1 : k = configKey
      · subst h1
        refine ⟨⟨?_, ?_⟩, ?_, ?_⟩
        · intro _
          rfl
        · intro _
          simp [authenticateApiKey, he, h0]
        · intro k2 hp
          simp [authenticateApiKey, he, h0] at hp
          exact hp.symm
        · intro hx
          exact absurd rfl hx
      · refine ⟨⟨?_, ?_⟩, ?_, ?_⟩
        · intro hp
          simp [authenticateApiKey, he, h0, h1] at hp
        · intro hx
          simp at hx
          exact absurd hx h1
        · intro k2 hp
          simp [authenticateApiKey, he, h0, h1] at hp
        · intro _
          exact ⟨"API key inválida", by simp [authenticateApiKey, he, h0, h1]⟩

/-- Witness for C8: the configured key is accepted both through the
`X-API-Key` header and through `Authorization: Bearer`. -/
theorem c8_api_key_exact_match_witness :
    authenticateApiKey "your-secret-api-key-here"
      { xApiKey := some "your-secret-api-key-here", authorization := none } =
      AuthOutcome.proceed "your-secret-api-key-here" ∧
    authenticateApiKey "your-secret-api-key-here"
      { xApiKey := none, authorization := some "Bearer your-secret-api-key-here" } =
      AuthOutcome.proceed "your-secret-api-key-here" := by
  constructor
  · exact (c8_api_key_exact_match "your-secret-api-key-here"
      { xApiKey := some "your-secret-api-key-here", authorization := none }
      (by decide)).1.mpr (by decide)
  · exact (c8_api_key_exact_match "your-secret-api-key-here"
      { xApiKey := none, authorization := some "Bearer your-secret-api-key-here" }
      (by decide)).1.mpr (by decide)

lemma nodup_applyStep (ls : List String) (st : FanStep) (h : ls.Nodup) :
    (applyStep ls st).Nodup := by
  cases st with
  | attach c =>
      by_cases hc : c ∈ ls
      · simpa [applyStep, hc] using h
      · simp [applyStep, hc, List.nodup_cons, h]
  | detach c => simpa [applyStep] using h.erase c
  | emitEv e => simpa [applyStep] using h

lemma fanDeliveries_index_ge (tr : List FanStep) :
    ∀ (ls : List String) (i : Nat) (d : String × Nat × String),
      d ∈ fanDeliveries ls i tr → i ≤ d.2.1 := by
  induction tr with
  | nil =>
      intro ls i d hd
      simp [fanDeliveries] at hd
  | cons st rest ih =>
      intro ls i d hd
      cases st with
      | attach c =>
          simp only [fanDeliveries] at hd
          exact Nat.le_of_succ_le (ih _ _ _ hd)
      | detach c =>
          simp only [fanDeliveries] at hd
          exact Nat.le_of_succ_le (ih _ _ _ hd)
      | emitEv e =>
          simp only [fanDeliveries, List.mem_append] at hd
          rcases hd with hd | hd
          · obtain ⟨a, ha, hae⟩ := List.mem_map.mp hd
            subst hae
            simp [tagDelivery]
          · exact Nat.le_of_succ_le (ih _ _ _ hd)

lemma deliveryCount_cons (x d : String × Nat × String)
    (l : List (String × Nat × String)) :
    deliveryCount d (x :: l) = (if x = d then 1 else 0) + deliveryCount d l := by
  by_cases hx : x = d
  · simp [deliveryCount, List.filter_cons, hx, Nat.add_comm]
  · simp [deliveryCount, List.filter_cons, hx]

lemma deliveryCount_append (d : String × Nat × String)
    (l1 l2 : List (String × Nat × String)) :
    deliveryCount d (l1 ++ l2) = deliveryCount d l1 + deliveryCount d l2 := by
  simp [deliveryCount, List.filter_append]

lemma deliveryCount_of_not_mem (d : String × Nat × String)
    (l : List (String × Nat × String)) (h : d ∉ l) : deliveryCount d l = 0 := by
  induction l with
  | nil => rfl
  | cons a rest ih =>
      have h1 : ¬ a = d := fun he => h (List.mem_cons.mpr (Or.inl he.symm))
      have h2 : d ∉ rest := fun he => h (List.mem_cons.mpr (Or.inr he))
      rw [deliveryCount_cons, if_neg h1, ih h2]

lemma deliveryCount_map_le_one (ls : List String) (hnd : ls.Nodup) (i : Nat)
    (e : String) (d : String × Nat × String) :
    deliveryCount d (List.map (tagDelivery i e) ls) ≤ 1 := by
  induction ls with
  | nil => simp [deliveryCount]
  | cons a rest ih =>
      obtain ⟨hna, hrest⟩ := List.nodup_cons.mp hnd
      simp only [List.map]
      rw [deliveryCount_cons]
      by_cases hx : tagDelivery i e a = d
      · have h0 : deliveryCount d (List.map (tagDelivery i e) rest) = 0 := by
          apply deliveryCount_of_not_mem
          intro hmem
          obtain ⟨b, hb, hbe⟩ := List.mem_map.mp hmem
          have hba : b = a := congrArg (fun p => p.1) (hbe.trans hx.symm)
          exact hna (hba ▸ hb)
        rw [if_pos hx, h0]
      · rw [if_neg hx]
        simpa using ih hrest

lemma count_fanDeliveries_le_one (tr : List FanStep) :
    ∀ (ls : List String) (i : Nat), ls.Nodup →
      ∀ (c : String) (j : Nat) (e : String),
        deliveryCount (c, j, e) (fanDeliveries ls i tr) ≤ 1 := by
  induction tr with
  | nil =>
      intro ls i _ c j e
      simp [fanDeliveries, deliveryCount]
  | cons st rest ih =>
      intro ls i hnd c j e
      cases st with
      | attach a =>
          simp only [fanDeliveries]
          exact ih _ (i + 1) (nodup_applyStep ls _ hnd) c j e
      | detach a =>
          simp only [fanDeliveries]
          exact ih _ (i + 1) (nodup_applyStep ls _ hnd) c j e
      | emitEv ev =>
          simp only [fanDeliveries]
          rw [deliveryCount_append]
          by_cases hj : j = i
          · subst hj
            have h2 : deliveryCount (c, j, e) (fanDeliveries ls (j + 1) rest) = 0 := by
              apply deliveryCount_of_not_mem
              intro hmem
              have hge := fanDeliveries_index_ge rest ls (j + 1) _ hmem
              simp at hge
            rw [h2]
            have h1 := deliveryCount_map_le_one ls hnd j ev (c, j, e)
            omega
          · have h1 : deliveryCount (c, j, e) (List.map (tagDelivery i ev) ls) = 0 := by
              apply deliveryCount_of_not_mem
              intro hmem
              obtain ⟨a, ha, hae⟩ := List.mem_map.mp hmem
              have hi : i = j := congrArg (fun p => p.2.1) hae
              exact hj hi.symm
            rw [h1]
            simpa using ih ls (i + 1) hnd c j e

lemma mem_fanDeliveries (tr : List FanStep) :
    ∀ (ls : List String) (i : Nat) (c : String) (j : Nat) (e : String),
      (c, j, e) ∈ fanDeliveries ls i tr →
        ∃ k, j = i + k ∧ c ∈ listenersAt ls tr k ∧
          tr.get? k = some (FanStep.emitEv e) := by
  induction tr with
  | nil =>
      intro ls i c j e hd
      simp [fanDeliveries] at hd
  | cons st rest ih =>
      intro ls i c j e hd
      cases st with
      | attach a =>
          simp only [fanDeliveries] at hd
          obtain ⟨k, hk, hmem, hget⟩ := ih _ (i + 1) c j e hd
          refine ⟨k + 1, by omega, ?_, ?_⟩
          · simpa [listenersAt] using hmem
          · simpa using hget
      | detach a =>
          simp only [fanDeliveries] at hd
          obtain ⟨k, hk, hmem, hget⟩ := ih _ (i + 1) c j e hd
          refine ⟨k + 1, by omega, ?_, ?_⟩
          · simpa [listenersAt] using hmem
          · simpa using hget
      | emitEv ev =>
          simp only [fanDeliveries, List.mem_append] at hd
          rcases hd with hd | hd
          · obtain ⟨a, ha, hae⟩ := List.mem_map.mp hd
            have ha2 : a = c := congrArg (fun p => p.1) hae
            have hi : i = j := congrArg (fun p => p.2.1) hae
            have hev : ev = e := congrArg (fun p => p.2.2) hae
            refine ⟨0, by omega, ?_, ?_⟩
            · rw [← ha2]
              exact ha
            · rw [← hev]
              rfl
          · obtain ⟨k, hk, hmem, hget⟩ := ih ls (i + 1) c j e hd
            refine ⟨k + 1, by omega, ?_, ?_⟩
            · simpa [listenersAt, applyStep] using hmem
            · simpa using hget

/-- C9: every delivery the event fan-out makes is tied to one emission
step: a consumer receives each emitted event at most once, and receives it
only if the consumer's listener was registered at the moment of that
emission — in particular a consumer that attaches only after an event was
emitted never receives that event, there being no replay buffer. -/
theorem c9_fanout_no_replay (tr : List FanStep) (c : String) (j : Nat) (e : String)
    (h : (c, j, e) ∈ fanDeliveries [] 0 tr) :
    deliveryCount (c, j, e) (fanDeliveries [] 0 tr) ≤ 1 ∧
    c ∈ listenersAt [] tr j ∧
    tr.get? j = some (FanStep.emitEv e) := by
  obtain ⟨k, hk, hmem, hget⟩ := mem_fanDeliveries tr [] 0 c j e h
  have hkj : k = j := by omega
  rw [hkj] at hmem hget
  exact ⟨count_fanDeliveries_le_one tr [] 0 List.nodup_nil c j e, hmem, hget⟩

/-- Witness for C9: in the trace `emit message; attach sse1; emit ready`
the late-attaching consumer `sse1` receives the `ready` emission (step 2)
exactly once, and was indeed registered when step 2 ran. -/
theorem c9_fanout_no_replay_witness :
    deliveryCount ("sse1", 2, "ready")
        (fanDeliveries [] 0
          [FanStep.emitEv "message", FanStep.attach "sse1", FanStep.emitEv "ready"]) ≤ 1 ∧
    "sse1" ∈ listenersAt []
        [FanStep.emitEv "message", FanStep.attach "sse1", FanStep.emitEv "ready"] 2 ∧
    [FanStep.emitEv "message", FanStep.attach "sse1", FanStep.emitEv "ready"].get? 2 =
      some (FanStep.emitEv "ready") :=
  c9_fanout_no_replay
    [FanStep.emitEv "message", FanStep.attach "sse1", FanStep.emitEv "ready"]
    "sse1" 2 "ready" (by decide)

end Mariflow
